import Mathlib

/-!
Verification of the ORCHA-Orion chat orchestrator core against its
natural-language specification.

The embedding models Python strings as `List Char` wherever character
slicing and lengths matter (Python `len`/`[:n]`/`[-n:]` act on characters),
and as Lean `String` where only equality and prefix tests occur.  Optional
dict fields are `Option` values; Python truthiness (where `None` and `""`
and `[]` are falsy) is made explicit through the `truthy*` helpers.
Database rows are plain structures, the database a structure of lists, and
external collaborators (LM Studio, OCR, RAG) are oracles supplied in an
environment record, with each call's outcome an `Except`/`Bool` value.
-/

namespace Orcha

/-- Python truthiness of an optional string: `None` and `""` are falsy. -/
def truthyStr : Option String → Bool
  | none => false
  | some s => s ≠ ""

/-- Python `d.get(k) or default` on string fields: the stored value when it
is truthy, the default otherwise. -/
def getTruthyStr (o : Option String) (d : String) : String :=
  match o with
  | none => d
  | some s => if s = "" then d else s

/-- Python `x or y` on two optional strings: `x` when truthy, else `y`. -/
def pyOrStr (x y : Option String) : Option String :=
  if truthyStr x then x else y

/-- Python truthiness of an optional list (a missing or empty list is falsy). -/
def truthyList {α : Type} : Option (List α) → Bool
  | none => false
  | some l => !l.isEmpty

/-- Python `d.get(k) or default` for list-valued fields. -/
def getTruthyList {α : Type} (o : Option (List α)) (d : List α) : List α :=
  match o with
  | none => d
  | some l => if l.isEmpty then d else l

/-- The ASCII whitespace characters Python's `str.strip` removes (the
repository's inputs are ASCII; wider Unicode whitespace is not modelled). -/
def isPyWs (c : Char) : Bool :=
  c = ' ' || c = '\t' || c = '\n' || c = '\r' || c = '\x0b' || c = '\x0c'

/-- Python `s.strip()` on a character list. -/
def pyStrip (s : List Char) : List Char :=
  ((s.dropWhile isPyWs).reverse.dropWhile isPyWs).reverse

/-- `p` is a leading segment of `s` (Python `s.startswith(p)` on char lists). -/
def listStartsWith : List Char → List Char → Bool
  | _, [] => true
  | [], _ :: _ => false
  | c :: cs, p :: ps => c = p && listStartsWith cs ps

/-- Python `s.startswith(p)` on Lean strings, character-wise. -/
def strStartsWith (s p : String) : Bool := listStartsWith s.data p.data

/-! ## Memory truncation (orchestrator.py lines 16-42) -/

/-- Python slice `s[-k:]` on a character list.  For `k = 0` it is `s[0:]`,
the whole string (`-0 = 0`); otherwise the last `min k (length s)`
characters. -/
def pyTailSlice (s : List Char) (k : Nat) : List Char :=
  if k = 0 then s else s.drop (s.length - k)

/-- The truncation marker `"..."` prepended by `truncate_memory_to_tokens`. -/
def truncationMarker : List Char := ['.', '.', '.']

/-- `truncate_memory_to_tokens` (orchestrator.py lines 16-42): keep the
latest content, approximating 1 token as 4 characters. -/
def truncate_memory_to_tokens (memory_content : List Char) (max_tokens : Nat) : List Char :=
  if memory_content = [] then memory_content
  else
    let max_chars := max_tokens * 4
    if memory_content.length ≤ max_chars then memory_content
    else truncationMarker ++ pyTailSlice memory_content max_chars

/-! ## Token tracker (token_tracker_pg.py lines 18-109)

Timestamps are naturals counting seconds; `timedelta(hours=24)` is 86400. -/

/-- 24 hours in seconds (`timedelta(hours=24)`). -/
def twentyFourHours : Nat := 24 * 60 * 60

/-- One row of the `token_usage` table (models.py lines 42-52). -/
structure TokenUsageRow where
  user_id : Nat
  total_tokens : Nat
  reset_at : Nat
  last_updated : Nat
deriving Repr, DecidableEq

/-- The dictionary `increment_tokens` returns on the non-failing path. -/
structure IncrementOut where
  current_usage : Nat
  tokens_added : Nat
  reset_at : Option Nat
  tracking_enabled : Bool
deriving Repr, DecidableEq

/-- `PostgreSQLTokenTracker.increment_tokens` (token_tracker_pg.py lines
18-97), acting on the user's row (`none` when no row exists) at time `now`:
the updated row and the returned usage summary.  The `except` fallback of
lines 99-109 (storage failure) is modelled separately by the caller. -/
def increment_tokens (row : Option TokenUsageRow) (user_id : Nat) (now : Nat)
    (tokens_used : Nat) : TokenUsageRow × IncrementOut :=
  match row with
  | none =>
    let reset_at := now + twentyFourHours
    (⟨user_id, tokens_used, reset_at, now⟩,
     ⟨tokens_used, tokens_used, some reset_at, true⟩)
  | some r =>
    if r.reset_at ≤ now then
      let reset_at := now + twentyFourHours
      (⟨r.user_id, tokens_used, reset_at, now⟩,
       ⟨tokens_used, tokens_used, some reset_at, true⟩)
    else
      (⟨r.user_id, r.total_tokens + tokens_used, r.reset_at, now⟩,
       ⟨r.total_tokens + tokens_used, tokens_used, some r.reset_at, true⟩)

/-! ## Title auto-generation (orchestrator.py lines 582-599) -/

/-- The title built from the first user message (orchestrator.py line 595):
`message[:50] + "..." if len(message) > 50 else message`. -/
def titleFrom (message : List Char) : List Char :=
  if message.length > 50 then message.take 50 ++ truncationMarker else message

/-- Python truthiness of the cached title (`not conversation_title` is true
for both `None` and `""`). -/
def truthyTitle : Option (List Char) → Bool
  | none => false
  | some t => !t.isEmpty

/-- The title-update step of orchestrator.py lines 582-599: given the cached
title, the conversation's message count at the time the assistant reply is
stored, and the current user message, the resulting title. -/
def maybe_set_title (cached_title : Option (List Char)) (message_count : Nat)
    (message : List Char) : Option (List Char) :=
  if truthyTitle cached_title then cached_title
  else if message_count ≤ 2 then some (titleFrom message) else cached_title

/-! ## Attachment classification (orchestrator.py lines 106-141 and 231-312) -/

/-- One inbound attachment descriptor.  `type_` is the raw `"type"` entry
(`a.get("type")`, absent when the key is missing); `mime` is `a.get("mime",
"")` folded to its default; the remaining fields are the optional dict
entries read by the orchestrator. -/
structure Attachment where
  type_ : Option String
  mime : String
  base64 : Option String
  data : Option String
  uri : Option String
  filename : Option String
deriving Repr, DecidableEq

/-- `a.get("base64") or a.get("data")` (orchestrator.py lines 131 and 236). -/
def attachmentData (a : Attachment) : Option String :=
  pyOrStr a.base64 a.data

/-- The image test of orchestrator.py lines 126-128 (also lines 268-270):
type equals `"image"`, or type starts with `"image/"`, or mime starts with
`"image/"`; the type read with default `""`. -/
def isImageTyped (a : Attachment) : Bool :=
  a.type_.getD "" = "image" || strStartsWith (a.type_.getD "") "image/"
    || strStartsWith a.mime "image/"

/-- The entries `has_vision_attachments` collects (orchestrator.py lines
135-139). -/
structure VisionImage where
  base64 : String
  type_ : String
  filename : String
deriving Repr, DecidableEq

/-- The list built by `has_vision_attachments` (orchestrator.py lines
106-141): every attachment that is image-typed and carries truthy inline
data, with the mime preferred over the type tag. -/
def visionImagesOf : List Attachment → List VisionImage
  | [] => []
  | a :: rest =>
    let tail := visionImagesOf rest
    if isImageTyped a && truthyStr (attachmentData a) then
      ⟨(attachmentData a).getD "",
       (if a.mime ≠ "" then a.mime else a.type_.getD ""),
       a.filename.getD "image"⟩ :: tail
    else tail

/-- `has_vision_attachments` (orchestrator.py lines 106-141). -/
def has_vision_attachments (attachments : List Attachment) :
    Bool × List VisionImage :=
  let vs := visionImagesOf attachments
  (!vs.isEmpty, vs)

/-- Membership in the vision bucket: the per-attachment predicate of
`has_vision_attachments`. -/
def visionBucket (a : Attachment) : Bool :=
  isImageTyped a && truthyStr (attachmentData a)

/-- Outcome of the attachment-processing loop (orchestrator.py lines
231-312) for one attachment. -/
inductive LoopOutcome
  | pdfExtracted
  | imageNoted
  | uriIngested
  | skippedOut
  | typeCrash
deriving Repr, DecidableEq

/-- What the processing loop of orchestrator.py lines 231-312 does with one
attachment: inline data takes the PDF branch (line 245) or the image branch
(lines 268-270); with inline data but no `"type"` key the chain
`attachment_type.startswith("image/")` dereferences `None` and raises
(AttributeError, uncaught at that point); without truthy inline data a
truthy `uri` takes the legacy OCR-and-ingest branch (line 281); anything
else falls through the loop silently. -/
def classify_attachment (a : Attachment) : LoopOutcome :=
  if truthyStr (attachmentData a) then
    if a.type_ = some "application/pdf" then .pdfExtracted
    else
      match a.type_ with
      | none => .typeCrash
      | some t =>
        if t = "image" || strStartsWith t "image/" || strStartsWith a.mime "image/" then
          .imageNoted
        else .skippedOut
  else if truthyStr a.uri then .uriIngested
  else .skippedOut

/-- How many of the four buckets named by the specification (vision image,
PDF, legacy-URI, skipped) the attachment lands in; the vision bucket is the
one `has_vision_attachments` computes, the others the processing loop's. -/
def bucketCount (a : Attachment) : Nat :=
  (if visionBucket a then 1 else 0)
    + (if classify_attachment a = .pdfExtracted then 1 else 0)
    + (if classify_attachment a = .uriIngested then 1 else 0)
    + (if classify_attachment a = .skippedOut then 1 else 0)

/-! ## Database rows (db/models.py) -/

/-- A retrieval context as returned by `rag_query` (the orchestrator reads
the optional keys `source`, `doc_id`, `text`, `chunk`, `content`). -/
structure RagContext where
  source : Option String
  doc_id : Option String
  text : Option String
  chunk : Option String
  content : Option String
deriving Repr, DecidableEq

/-- One row of `conversations` (models.py lines 55-74).  Timestamps are
naturals (seconds); the folder link is not needed by any claim. -/
structure ConversationRow where
  id : Nat
  user_id : Nat
  title : Option (List Char)
  tenant_id : Option String
  created_at : Nat
  updated_at : Nat
  is_active : Bool
deriving Repr, DecidableEq

/-- One row of `chat_messages` (models.py lines 77-99). -/
structure ChatMessageRow where
  id : Nat
  conversation_id : Nat
  role : String
  content : List Char
  attachments : Option (List Attachment)
  token_count : Option Nat
  model_used : Option String
  error_message : Option String
  rag_contexts_used : Option (List RagContext)
  created_at : Nat
deriving Repr, DecidableEq

/-- One row of `user_memories` (models.py lines 121-142), with the fields
the orchestrator reads. -/
structure UserMemoryRow where
  id : Nat
  user_id : Nat
  content : List Char
  title : Option (List Char)
  is_active : Bool
  created_at : Nat
deriving Repr, DecidableEq

/-- The relational store: the tables the chat turn touches, plus the
primary-key counters the database would assign. -/
structure DB where
  conversations : List ConversationRow
  messages : List ChatMessageRow
  memories : List UserMemoryRow
  token_rows : List TokenUsageRow
  next_conversation_id : Nat
  next_message_id : Nat
deriving Repr, DecidableEq

/-! ## Ordering by `created_at DESC` (the `order_by(...desc())` queries)

A stable insertion sort on a natural key, descending: rows with equal
`created_at` keep their storage order, making the model deterministic where
SQL leaves ties unspecified. -/

/-- Insert `x` into a descending-sorted list, after entries with a key at
least as large. -/
def insertByKeyDesc {α : Type} (key : α → Nat) (x : α) : List α → List α
  | [] => [x]
  | y :: ys => if key x ≤ key y then y :: insertByKeyDesc key x ys else x :: y :: ys

/-- Stable sort by a natural key, descending. -/
def sortByKeyDesc {α : Type} (key : α → Nat) : List α → List α
  | [] => []
  | x :: xs => insertByKeyDesc key x (sortByKeyDesc key xs)

/-! ## History loading (orchestrator.py lines 406-452) -/

/-- The database query of orchestrator.py lines 412-420: messages of the
conversation whose id is strictly below the just-inserted user message's id,
ordered by `created_at` descending, limited to 10. -/
def dbHistoryQuery (msgs : List ChatMessageRow) (conversation_id current_id : Nat) :
    List ChatMessageRow :=
  (sortByKeyDesc (fun m => m.created_at)
    (msgs.filter (fun m =>
      m.conversation_id == conversation_id && m.id < current_id))).take 10

/-- The loaded history (orchestrator.py lines 412-430): the query result
reversed into chronological order, keeping only user and assistant roles. -/
def load_db_history (msgs : List ChatMessageRow) (conversation_id current_id : Nat) :
    List ChatMessageRow :=
  ((dbHistoryQuery msgs conversation_id current_id).reverse).filter
    (fun m => m.role == "user" || m.role == "assistant")

/-- One caller-supplied or database-loaded history entry (a dict with `role`
and `content`). -/
structure HistoryItem where
  role : String
  content : List Char
deriving Repr, DecidableEq

/-! ## Prompt assembly (orchestrator.py lines 326-469) -/

/-- One part of a multimodal content array. -/
inductive ContentPart
  | textPart (text : List Char)
  | imageUrl (url : String)
deriving Repr, DecidableEq

/-- The content of one chat-completion message: plain text or a multimodal
part array. -/
inductive MsgContent
  | plain (text : List Char)
  | parts (ps : List ContentPart)
deriving Repr, DecidableEq

/-- One role-tagged message handed to the chat-completion call. -/
structure ChatML where
  role : String
  content : MsgContent
deriving Repr, DecidableEq

/-- The fixed trigger phrase for memory extraction (orchestrator.py line 328). -/
def memoryTrigger : List Char :=
  ("Based on my recent messages, extract and remember").data

/-- The domain-restricted persona (orchestrator.py line 337). -/
def auraPromptChars : List Char :=
  ("You are AURA, an advanced assistant for insurance and finance. Provide precise, professional insights on health insurance, FinTech, risk management, and compliant financial advice. Refuse general topics and redirect to relevant contexts. Stay factual, concise, and analytical.").data

/-- The unrestricted persona used for memory extraction (orchestrator.py
line 332). -/
def unrestrictedPromptChars : List Char :=
  ("You are a helpful AI assistant. Carefully analyze the user\x27s conversation history and extract key information they want you to remember. Be thorough and accurate in identifying personal details, preferences, and important facts.").data

/-- The retrieval-context block (orchestrator.py lines 343-348): the top 4
contexts, each tagged with its source and truncated to 800 characters. -/
def ctxEntries (i : Nat) : List RagContext → List Char
  | [] => []
  | c :: rest =>
    let src := getTruthyStr c.source (getTruthyStr c.doc_id ("context_" ++ toString i))
    let txt := getTruthyStr c.text (getTruthyStr c.chunk (getTruthyStr c.content ""))
    ("[").data ++ src.data ++ ("] ").data ++ txt.data.take 800 ++ ("\n\n").data
      ++ ctxEntries (i + 1) rest

/-- The full SOURCES system block (orchestrator.py lines 344-348). -/
def ctxBlockText (ctxs : List RagContext) : List Char :=
  ("\n\n=== SOURCES ===\n").data ++ ctxEntries 0 (ctxs.take 4)

/-- Opaque rendering of a stored timestamp as the date string
`strftime(...)` would produce; its exact text is irrelevant to every claim. -/
def dateChars (t : Nat) : List Char := (toString t).data

/-- One memory entry of the USER MEMORY block (orchestrator.py lines
373-378); the title is included only when truthy. -/
def memoryEntry (idx : Nat) (m : UserMemoryRow) : List Char :=
  ("\n[Memory ").data ++ (toString idx).data
    ++ (match m.title with
        | none => []
        | some t => if t.isEmpty then [] else (" - ").data ++ t)
    ++ (" | ").data ++ dateChars m.created_at
    ++ ("]\n").data ++ m.content ++ ("\n").data

/-- The memory entries, numbered from 1 (orchestrator.py line 371). -/
def memoryEntries (idx : Nat) : List UserMemoryRow → List Char
  | [] => []
  | m :: rest => memoryEntry idx m ++ memoryEntries (idx + 1) rest

/-- The USER MEMORY block over the loaded memories in oldest-to-newest
order (orchestrator.py lines 368-381). -/
def memoryBlock (ms : List UserMemoryRow) : List Char :=
  ("=== USER MEMORY ===\n").data ++ memoryEntries 1 ms.reverse

/-- The memory query of orchestrator.py lines 355-364: the user's active
memories, most recent first, limited to 5. -/
def load_user_memories (mems : List UserMemoryRow) (user_id : Nat) :
    List UserMemoryRow :=
  (sortByKeyDesc (fun m => m.created_at)
    (mems.filter (fun m => m.user_id == user_id && m.is_active))).take 5

/-- The message enhanced with extracted PDF text (orchestrator.py lines
455-469): the document template when `pdf_content` is truthy, the original
message otherwise. -/
def enhanced_message (pdf_content message : List Char) : List Char :=
  if pdf_content.isEmpty then message
  else
    ("The user has attached a document with the following content:\n\n").data
      ++ pdf_content
      ++ ("\n\nUser\x27s question: ").data ++ message
      ++ ("\n\nPlease answer the user\x27s question based on the document content above.").data

/-- `base64_data.split(",", 1)[1] if "," in base64_data else base64_data`
(orchestrator.py lines 491-492): strip a data-URL header. -/
def stripDataUrlHeader (b64 : String) : String :=
  if strStartsWith b64 "data:" then
    match b64.splitOn "," with
    | [] => b64
    | [_] => b64
    | _ :: rest => String.intercalate "," rest
  else b64

/-- `img["type"].split("/")[1] if "/" in img["type"] else "jpeg"`
(orchestrator.py line 495). -/
def imgFormat (t : String) : String :=
  match t.splitOn "/" with
  | _ :: second :: _ => second
  | _ => "jpeg"

/-- One image part of the multimodal content (orchestrator.py lines
497-502). -/
def imagePart (img : VisionImage) : ContentPart :=
  .imageUrl ("data:image/" ++ imgFormat img.type_ ++ ";base64,"
    ++ stripDataUrlHeader img.base64)

/-- The substitute text used when the vision message is blank
(orchestrator.py line 483). -/
def visionFallbackChars : List Char := ("User provided image; analyze it").data

/-- The multimodal content array for a vision-routed turn (orchestrator.py
lines 481-502): the (possibly substituted) text part followed by one image
part per vision image. -/
def visionContent (enhanced : List Char) (imgs : List VisionImage) :
    List ContentPart :=
  .textPart (if (pyStrip enhanced).isEmpty then visionFallbackChars else enhanced)
    :: imgs.map imagePart

/-! ## The turn handler (orchestrator.py lines 143-687) -/

/-- The chat-completion response shape the orchestrator reads: the content
of each choice's message (missing fields already folded to `""`), the
`model` field, and the `usage.total_tokens` value when a `usage` object is
present. -/
structure LMResponse where
  choices : List (List Char)
  model_name : Option String
  usage_total : Option Nat
deriving Repr, DecidableEq

/-- The `rag_query` response (orchestrator.py line 319 reads `contexts` then
`results`). -/
structure RagResponse where
  contexts : Option (List RagContext)
  results : Option (List RagContext)
deriving Repr, DecidableEq

/-- The oracle environment for one turn: the clock and the outcome of each
external call.  `lmResult` is `Except.error` for a timeout, transport error
or malformed (non-dict / missing `choices`) reply — the code turns all of
them into the same caught exception; `pdfExtract` is `extract_pdf_text`;
`uriIngestOk` the combined success of `call_ocr` plus `rag_ingest`;
`memoryLoadFails` and `historyLoadFails` the caught per-block database
failures; `errorPersistFails` a failure of the commit that stores the error
message (orchestrator.py line 675); `trackerFails` a token-tracking storage
failure. -/
structure Env where
  now : Nat
  pdfExtract : String → Except String (List Char)
  uriIngestOk : String → Bool
  ragResult : Except String RagResponse
  lmResult : Except String LMResponse
  memoryLoadFails : Bool
  historyLoadFails : Bool
  errorPersistFails : Bool
  trackerFails : Bool

/-- The inbound payload of `handle_chat_request` (orchestrator.py lines
155-162), already coerced: `user_id` as the integer the code converts to. -/
structure ChatPayload where
  user_id : Nat
  message : List Char
  attachments : List Attachment
  use_rag : Bool
  conversation_history : List HistoryItem
  conversation_id : Option Nat
  tenant_id : Option String
deriving Repr, DecidableEq

/-- Python truthiness of the optional integer `conversation_id` (0 is
falsy). -/
def truthyNat : Option Nat → Bool
  | none => false
  | some n => n ≠ 0

/-- Conversation resolution (orchestrator.py lines 174-204): a truthy
supplied id is looked up among the caller's active conversations — on a
miss the code only logs and leaves `conversation = None`; without a truthy
id a fresh conversation with a null title is created and committed.
Returns the conversation (with its cached title) or `none`, and the store. -/
def resolve_conversation (now : Nat) (db : DB) (p : ChatPayload) :
    Option (ConversationRow × Option (List Char)) × DB :=
  if truthyNat p.conversation_id then
    match db.conversations.find? (fun c =>
        c.id == p.conversation_id.getD 0 && c.user_id == p.user_id && c.is_active) with
    | some c => (some (c, c.title), db)
    | none => (none, db)
  else
    let c : ConversationRow :=
      ⟨db.next_conversation_id, p.user_id, none, p.tenant_id, now, now, true⟩
    (some (c, none),
     { db with
        conversations := db.conversations ++ [c],
        next_conversation_id := db.next_conversation_id + 1 })

/-- Insert one `chat_messages` row with the next primary key (the
`db_session.add` plus commit pattern); returns the row and the store. -/
def append_message (db : DB) (conversation_id : Nat) (role : String)
    (content : List Char) (attachments : Option (List Attachment))
    (token_count : Option Nat) (model_used : Option String)
    (error_message : Option String) (rag_ctx : Option (List RagContext))
    (now : Nat) : ChatMessageRow × DB :=
  let m : ChatMessageRow :=
    ⟨db.next_message_id, conversation_id, role, content, attachments,
     token_count, model_used, error_message, rag_ctx, now⟩
  (m, { db with
          messages := db.messages ++ [m],
          next_message_id := db.next_message_id + 1 })

/-- Set `updated_at` (and the title) on one conversation row. -/
def updateConversation (db : DB) (conversation_id : Nat) (now : Nat)
    (title : Option (List Char)) : DB :=
  { db with
      conversations := db.conversations.map (fun c =>
        if c.id == conversation_id then
          { c with updated_at := now, title := title } else c) }

/-- What the attachment loop accumulates: the extracted PDF text, whether a
legacy URI attachment forced RAG mode on, and the ingest count. -/
structure AttachmentsOut where
  pdf_content : List Char
  use_rag : Bool
  ingested_count : Nat
deriving Repr, DecidableEq

/-- The PDF wrapper appended per document (orchestrator.py lines 257-259). -/
def pdfWrap (filename : String) (txt : List Char) : List Char :=
  ("\n\n=== Document: ").data ++ filename.data ++ (" ===\n").data ++ txt
    ++ ("\n=== End of ").data ++ filename.data ++ (" ===\n").data

/-- The attachment-processing loop (orchestrator.py lines 224-312).  PDF
extraction failures and OCR/ingest failures are caught per attachment and
skip it; an attachment with inline data but no `"type"` key raises an
uncaught AttributeError, aborting the whole request (`Except.error`). -/
def process_attachments (env : Env) : List Attachment → Except String AttachmentsOut
  | [] => .ok ⟨[], false, 0⟩
  | a :: rest =>
    if truthyStr (attachmentData a) then
      if a.type_ = some "application/pdf" then
        match env.pdfExtract ((attachmentData a).getD "") with
        | .ok txt =>
          match process_attachments env rest with
          | .ok r =>
            .ok ⟨pdfWrap (a.filename.getD "unknown") txt ++ r.pdf_content,
                 r.use_rag, r.ingested_count⟩
          | .error e => .error e
        | .error _ => process_attachments env rest
      else
        match a.type_ with
        | none =>
          .error "AttributeError: NoneType object has no attribute startswith"
        | some t =>
          if t = "image" || strStartsWith t "image/" || strStartsWith a.mime "image/" then
            process_attachments env rest
          else process_attachments env rest
    else if truthyStr a.uri then
      if env.uriIngestOk (a.uri.getD "") then
        match process_attachments env rest with
        | .ok r => .ok ⟨r.pdf_content, true, r.ingested_count + 1⟩
        | .error e => .error e
      else process_attachments env rest
    else process_attachments env rest

/-- The RAG step (orchestrator.py lines 314-324): performed exactly when
`use_rag` is effective; a query failure is caught and leaves `contexts`
as `None`. -/
def rag_contexts (env : Env) (useRag : Bool) : Option (List RagContext) :=
  if useRag then
    match env.ragResult with
    | .ok r => some (getTruthyList r.contexts (getTruthyList r.results []))
    | .error _ => none
  else none

/-- The system and history messages assembled before the current turn
(orchestrator.py lines 326-452): persona, optional SOURCES block, optional
USER MEMORY block, then the role-validated history. -/
def assembled_messages (env : Env) (db : DB) (p : ChatPayload)
    (conversation_id current_msg_id : Nat)
    (contexts : Option (List RagContext)) : List ChatML :=
  let is_memory_request := listStartsWith (pyStrip p.message) memoryTrigger
  let base : List ChatML :=
    [⟨"system", .plain (if is_memory_request then unrestrictedPromptChars
                        else auraPromptChars)⟩]
  let withCtx := base ++
    (if truthyList contexts then
      [⟨"system", .plain (ctxBlockText (contexts.getD []))⟩] else [])
  let mems :=
    if is_memory_request || env.memoryLoadFails then []
    else load_user_memories db.memories p.user_id
  let withMem := withCtx ++
    (if mems.isEmpty then []
     else [⟨"system", .plain (truncate_memory_to_tokens (memoryBlock mems) 2000)⟩])
  let hist :=
    if !p.conversation_history.isEmpty then p.conversation_history
    else if env.historyLoadFails then []
    else (load_db_history db.messages conversation_id current_msg_id).map
      (fun m => (⟨m.role, m.content⟩ : HistoryItem))
  withMem ++ (hist.filter (fun h => h.role == "user" || h.role == "assistant")).map
    (fun h => (⟨h.role, .plain h.content⟩ : ChatML))

/-- The apology text of the failure branch (orchestrator.py lines 669 and
685). -/
def errorApologyChars : List Char :=
  ("Sorry, I encountered an error processing your request. Please try again.").data

/-- The fallback stored when the model returns an empty reply
(orchestrator.py line 563). -/
def emptyReplyFallbackChars : List Char :=
  ("I apologize, but I couldn\x27t generate a proper response. Please try again.").data

/-- The response dict of `handle_chat_request`, with the fields the claims
inspect (`error_type`, the debug `model_response` echo and the token-usage
echo carry no claim content; `token_usage` keeps the increment summary,
`none` for the empty dict). -/
structure ChatResponse where
  status : String
  message : List Char
  error : Option String
  conversation_id : Option Nat
  contexts : List RagContext
  attachments_processed : Option Nat
  ingested_documents : Option Nat
  vision_processed : Bool
  images_count : Option Nat
  token_usage : Option IncrementOut
deriving Repr, DecidableEq

/-- A terminal turn outcome: a well-formed response, or an uncaught Python
exception escaping the handler. -/
inductive HandlerResult
  | crashed (detail : String)
  | responded (r : ChatResponse)
deriving Repr, DecidableEq

/-- The response returned by the failure branch (orchestrator.py lines
681-687). -/
def error_response (conversation_id : Nat) (e : String) : ChatResponse :=
  ⟨"error", errorApologyChars, some e, some conversation_id, [], none, none,
   false, none, none⟩

/-- The failure branch (orchestrator.py lines 652-687): best-effort
persistence of an assistant row carrying the real error, then the fixed
error response.  A failure of that persistence itself is caught and logged
(lines 676-678) and leaves the store untouched. -/
def error_branch (env : Env) (db : DB) (conversation_id : Nat) (e : String) :
    HandlerResult × DB :=
  let db2 :=
    if env.errorPersistFails then db
    else
      let (_, dbm) := append_message db conversation_id "assistant"
        errorApologyChars none none none (some e) none env.now
      { dbm with
          conversations := dbm.conversations.map (fun c =>
            if c.id == conversation_id then { c with updated_at := env.now } else c) }
  (.responded (error_response conversation_id e), db2)

/-- The success branch (orchestrator.py lines 536-650): extract the reply,
substitute the fixed fallback for an empty one, store the assistant row,
touch the conversation, auto-title (the count query sees the just-added
assistant row through the session's autoflush), track tokens, and build the
ok response. -/
def success_branch (env : Env) (db : DB) (conv : ConversationRow)
    (cached_title : Option (List Char)) (p : ChatPayload)
    (contexts : Option (List RagContext)) (hv : Bool)
    (vimgs : List VisionImage) (pa : AttachmentsOut) (resp : LMResponse) :
    HandlerResult × DB :=
  let assistant0 := match resp.choices with | [] => [] | c :: _ => c
  let total := match resp.choices with | [] => 0 | _ :: _ => resp.usage_total.getD 0
  let assistant := if assistant0.isEmpty then emptyReplyFallbackChars else assistant0
  let (_, db1) := append_message db conv.id "assistant" assistant none
    (some total) (some (resp.model_name.getD "unknown")) none
    (if truthyList contexts then contexts else none) env.now
  let message_count := (db1.messages.filter (fun m => m.conversation_id == conv.id)).length
  let new_title := maybe_set_title cached_title message_count p.message
  let db2 := updateConversation db1 conv.id env.now new_title
  let tracked :=
    if total > 0 && p.user_id != 0 then
      if env.trackerFails then (db2, (none : Option IncrementOut))
      else
        let old := db2.token_rows.find? (fun r => r.user_id == p.user_id)
        let (row, out) := increment_tokens old p.user_id env.now total
        ({ db2 with
            token_rows := db2.token_rows.filter (fun r => r.user_id != p.user_id)
              ++ [row] }, some out)
    else (db2, none)
  (.responded
    { status := "ok", message := assistant, error := none,
      conversation_id := some conv.id, contexts := contexts.getD [],
      attachments_processed :=
        if p.attachments.isEmpty then none else some p.attachments.length,
      ingested_documents :=
        if p.attachments.isEmpty then none else some pa.ingested_count,
      vision_processed := !p.attachments.isEmpty && hv,
      images_count :=
        if !p.attachments.isEmpty && hv then some vimgs.length else none,
      token_usage := tracked.2 }, tracked.1)

/-- The observable outcome of one turn: the result, the final store, and
the routing trace — whether `rag_query` was issued, whether the turn was
routed to the vision model, and the message sequence sent to it. -/
structure TurnOut where
  result : HandlerResult
  db : DB
  rag_queried : Bool
  vision_routed : Bool
  sent_messages : List ChatML
deriving Repr, DecidableEq

/-- `handle_chat_request` (orchestrator.py lines 143-687).  A supplied but
unresolvable conversation id leaves `conversation = None` and the insert of
the user row at line 207 dereferences it — an uncaught AttributeError
(the protecting `try` only starts at line 472).  Likewise an attachment
with inline data and no `"type"` key crashes at line 269.  The vision
check decides the model; the RAG step runs whenever `use_rag` is effective,
before and independently of that choice. -/
def handle_chat_request (env : Env) (db0 : DB) (p : ChatPayload) : TurnOut :=
  match resolve_conversation env.now db0 p with
  | (none, db1) =>
    ⟨.crashed "AttributeError: NoneType object has no attribute id", db1,
     false, false, []⟩
  | (some (conv, cached_title), db1) =>
    let inserted := append_message db1 conv.id "user" p.message
      (if p.attachments.isEmpty then none else some p.attachments)
      none none none none env.now
    let user_msg := inserted.1
    let db2 := inserted.2
    let hvp := has_vision_attachments p.attachments
    match process_attachments env p.attachments with
    | .error e => ⟨.crashed e, db2, false, false, []⟩
    | .ok pa =>
      let useRag := p.use_rag || pa.use_rag
      let contexts := rag_contexts env useRag
      let msgs := assembled_messages env db2 p conv.id user_msg.id contexts
      let enh := enhanced_message pa.pdf_content p.message
      let sent :=
        if hvp.1 then msgs ++ [⟨"user", .parts (visionContent enh hvp.2)⟩]
        else msgs ++ [⟨"user", .plain enh⟩]
      match env.lmResult with
      | .error e =>
        let out := error_branch env db2 conv.id e
        ⟨out.1, out.2, useRag, hvp.1, sent⟩
      | .ok resp =>
        let out := success_branch env db2 conv cached_title p contexts
          hvp.1 hvp.2 pa resp
        ⟨out.1, out.2, useRag, hvp.1, sent⟩

/-- The text part a vision-routed turn sends: the first part of the last
(multimodal) message, when it is a text part. -/
def sentVisionText (t : TurnOut) : Option (List Char) :=
  match t.sent_messages.getLast? with
  | some ⟨_, .parts (.textPart txt :: _)⟩ => some txt
  | _ => none

/-! ## Lemmas about the descending stable sort -/

theorem mem_insertByKeyDesc {α : Type} (key : α → Nat) (x y : α) (l : List α) :
    y ∈ insertByKeyDesc key x l ↔ y = x ∨ y ∈ l := by
  induction l with
  | nil => simp [insertByKeyDesc]
  | cons z zs ih =>
    simp only [insertByKeyDesc]
    split
    · simp only [List.mem_cons, ih]
      tauto
    · simp only [List.mem_cons]
      try tauto

theorem sorted_insertByKeyDesc {α : Type} (key : α → Nat) (x : α) (l : List α)
    (h : l.Pairwise (fun a b => key b ≤ key a)) :
    (insertByKeyDesc key x l).Pairwise (fun a b => key b ≤ key a) := by
  induction l with
  | nil => simp [insertByKeyDesc]
  | cons z zs ih =>
    rcases List.pairwise_cons.mp h with ⟨hz, hzs⟩
    simp only [insertByKeyDesc]
    split
    · rename_i hle
      refine List.pairwise_cons.mpr ⟨?_, ih hzs⟩
      intro b hb
      rcases (mem_insertByKeyDesc key x b zs).mp hb with rfl | hbz
      · exact hle
      · exact hz b hbz
    · rename_i hgt
      refine List.pairwise_cons.mpr ⟨?_, h⟩
      intro b hb
      have hzx : key z ≤ key x := by omega
      rcases List.mem_cons.mp hb with rfl | hbz
      · exact hzx
      · exact le_trans (hz b hbz) hzx

theorem mem_sortByKeyDesc {α : Type} (key : α → Nat) (y : α) (l : List α) :
    y ∈ sortByKeyDesc key l ↔ y ∈ l := by
  induction l with
  | nil => simp [sortByKeyDesc]
  | cons z zs ih => simp [sortByKeyDesc, mem_insertByKeyDesc, ih]

theorem sorted_sortByKeyDesc {α : Type} (key : α → Nat) (l : List α) :
    (sortByKeyDesc key l).Pairwise (fun a b => key b ≤ key a) := by
  induction l with
  | nil => simp [sortByKeyDesc]
  | cons z zs ih => exact sorted_insertByKeyDesc key z _ ih

/-! ## Claim C3 — memory truncation -/

/-- C3 counterexample: the claim quantifies over every token budget, but at
budget 0 the Python slice `memory_content[-0:]` is the whole string, so the
output of `truncate_memory_to_tokens "hello" 0` has length 8, violating the
claimed bound `len(output) ≤ 0*4 + len(marker) = 3`. -/
theorem C3_truncation_counterexample :
    ¬ ((truncate_memory_to_tokens ['h', 'e', 'l', 'l', 'o'] 0).length
        ≤ 0 * 4 + truncationMarker.length) := by decide

/-- C3 (amended to budgets ≥ 1): for every text and every token budget
b ≥ 1, the truncation returns the input unchanged when its length is at
most b*4; otherwise it returns the marker followed by exactly the last b*4
characters, the suffix after the marker equals those characters, and the
output length is at most b*4 + len(marker). -/
theorem C3_truncation (text : List Char) (b : Nat) (hb : 1 ≤ b) :
    (text.length ≤ b * 4 → truncate_memory_to_tokens text b = text) ∧
    (b * 4 < text.length →
      truncate_memory_to_tokens text b
          = truncationMarker ++ text.drop (text.length - b * 4) ∧
      (truncate_memory_to_tokens text b).drop truncationMarker.length
          = text.drop (text.length - b * 4) ∧
      (truncate_memory_to_tokens text b).length
          ≤ b * 4 + truncationMarker.length) := by
  constructor
  · intro h
    by_cases he : text = []
    · simp [truncate_memory_to_tokens, he]
    · simp [truncate_memory_to_tokens, he, h]
  · intro h
    have he : text ≠ [] := by
      intro h0
      rw [h0] at h
      simp at h
    have hk : b * 4 ≠ 0 := by omega
    have hnle : ¬ text.length ≤ b * 4 := by omega
    have hmain : truncate_memory_to_tokens text b
        = truncationMarker ++ text.drop (text.length - b * 4) := by
      simp [truncate_memory_to_tokens, he, hnle, pyTailSlice, hk]
    refine ⟨hmain, ?_, ?_⟩
    · rw [hmain]
      simp [truncationMarker]
    · rw [hmain]
      simp only [List.length_append, List.length_drop, truncationMarker,
        List.length_cons, List.length_nil]
      omega

/-- Witness for C3: a concrete truncating call at budget 1. -/
theorem C3_truncation_witness :
    1 ≤ (1 : Nat) ∧ truncate_memory_to_tokens ("abcdefgh").data 1
      = truncationMarker ++ ("efgh").data := by
  refine ⟨le_refl 1, ?_⟩
  rw [((C3_truncation ("abcdefgh").data 1 (le_refl 1)).2 (by decide)).1]
  decide

/-! ## Claim C2 — token-usage window -/

/-- C2: incrementing by n while the stored reset timestamp has not passed
adds n and leaves the reset timestamp unchanged; incrementing at or after
the reset timestamp (or with no row) stores exactly n and a fresh reset
timestamp 24 hours from now. -/
theorem C2_token_window (r : TokenUsageRow) (u now n : Nat) :
    (now < r.reset_at →
      (increment_tokens (some r) u now n).1.total_tokens = r.total_tokens + n ∧
      (increment_tokens (some r) u now n).1.reset_at = r.reset_at) ∧
    (r.reset_at ≤ now →
      (increment_tokens (some r) u now n).1.total_tokens = n ∧
      (increment_tokens (some r) u now n).1.reset_at = now + twentyFourHours) ∧
    (increment_tokens none u now n).1.total_tokens = n ∧
    (increment_tokens none u now n).1.reset_at = now + twentyFourHours := by
  refine ⟨fun h => ?_, fun h => ?_, ?_, ?_⟩
  · have hnle : ¬ r.reset_at ≤ now := by omega
    simp [increment_tokens, hnle]
  · simp [increment_tokens, h]
  · simp [increment_tokens]
  · simp [increment_tokens]

/-! ## Claim C6 — title auto-generation -/

/-- C6: the title is set to the first 50 characters of the message (with
the ellipsis appended exactly when the message exceeds 50 characters)
exactly when no truthy title is cached and the message count is at most 2;
otherwise the step is a no-op; and the step is idempotent, so an
already-set title is never changed. -/
theorem C6_title (t : Option (List Char)) (c : Nat) (m : List Char) :
    (truthyTitle t = false ∧ c ≤ 2 →
      maybe_set_title t c m = some (titleFrom m) ∧
      titleFrom m = m.take 50 ++ (if 50 < m.length then truncationMarker else [])) ∧
    (truthyTitle t = true ∨ 2 < c → maybe_set_title t c m = t) ∧
    maybe_set_title (maybe_set_title t c m) c m = maybe_set_title t c m := by
  refine ⟨fun h => ⟨?_, ?_⟩, fun h => ?_, ?_⟩
  · simp [maybe_set_title, h.1, h.2]
  · by_cases h50 : 50 < m.length
    · simp [titleFrom, h50]
    · have : m.length ≤ 50 := by omega
      simp [titleFrom, h50, List.take_of_length_le this]
  · rcases h with h | h
    · simp [maybe_set_title, h]
    · have hc : ¬ c ≤ 2 := by omega
      by_cases ht : truthyTitle t = true
      · simp [maybe_set_title, ht]
      · simp only [Bool.not_eq_true] at ht
        simp [maybe_set_title, ht, hc]
  · by_cases ht : truthyTitle t = true
    · simp [maybe_set_title, ht]
    · simp only [Bool.not_eq_true] at ht
      by_cases hc : c ≤ 2
      · simp only [maybe_set_title, ht, hc, Bool.false_eq_true, if_false, if_pos hc]
        by_cases hm : truthyTitle (some (titleFrom m)) = true
        · simp [hm]
        · simp only [Bool.not_eq_true] at hm
          simp [hm, hc]
      · simp [maybe_set_title, ht, hc]

/-! ## Claim C8 — attachment classification -/

/-- C8 counterexample: an attachment with inline payload, type
`application/pdf` and mime `image/png` lands in two buckets at once — the
processing loop extracts it as a PDF while `has_vision_attachments` also
collects it as a vision image — so classification is not a partition. -/
theorem C8_partition_counterexample :
    bucketCount ⟨some "application/pdf", "image/png", some "x", none, none, none⟩ ≠ 1 := by
  decide

/-- C8 (amended): the loop outcomes are mutually exclusive and an inline
payload always wins over the URI path, and an attachment matching no
predicate with a present type field is silently skipped; but the vision
bucket computed by `has_vision_attachments` can overlap the PDF branch
(image mime with PDF type), and an attachment with inline payload and no
type field raises instead of being skipped. -/
theorem C8_partition (a : Attachment) :
    (truthyStr (attachmentData a) = true → classify_attachment a ≠ .uriIngested) ∧
    (truthyStr (attachmentData a) = false →
      (classify_attachment a = .uriIngested ↔ truthyStr a.uri = true) ∧
      classify_attachment a ≠ .pdfExtracted ∧
      classify_attachment a ≠ .imageNoted ∧
      classify_attachment a ≠ .typeCrash) ∧
    (visionBucket a = true → truthyStr (attachmentData a) = true) ∧
    (classify_attachment a = .imageNoted ↔
      (visionBucket a = true ∧ a.type_ ≠ some "application/pdf" ∧ a.type_ ≠ none)) ∧
    (classify_attachment a = .typeCrash ↔
      (truthyStr (attachmentData a) = true ∧ a.type_ = none)) ∧
    (classify_attachment a = .skippedOut ↔
      (visionBucket a = false ∧ classify_attachment a ≠ .pdfExtracted ∧
       classify_attachment a ≠ .uriIngested ∧ classify_attachment a ≠ .typeCrash)) := by
  by_cases hd : truthyStr (attachmentData a) = true
  · rcases ht : a.type_ with _ | t
    · simp [classify_attachment, visionBucket, isImageTyped, hd, ht]
    · by_cases hpdf : t = "application/pdf"
      · subst hpdf
        simp [classify_attachment, visionBucket, isImageTyped, hd, ht]
      · by_cases himg : (t = "image" || strStartsWith t "image/"
            || strStartsWith a.mime "image/") = true
        · simp [classify_attachment, visionBucket, isImageTyped, hd, ht, hpdf, himg]
        · simp only [Bool.not_eq_true] at himg
          simp [classify_attachment, visionBucket, isImageTyped, hd, ht, hpdf, himg]
  · simp only [Bool.not_eq_true] at hd
    by_cases hu : truthyStr a.uri = true
    · simp [classify_attachment, visionBucket, isImageTyped, hd, hu]
    · simp only [Bool.not_eq_true] at hu
      simp [classify_attachment, visionBucket, isImageTyped, hd, hu]

/-! ## Claim C7 — history loading -/

/-- C7: when the caller supplies no history, the loaded history contains
only user/assistant roles, has at most 10 entries, lies within the
conversation strictly before the current message id (so the just-inserted
message is excluded by identity, independent of timestamps), is in
chronological order, and consists of the at most 10 most recent prior
messages returned by the query. -/
theorem C7_history (msgs : List ChatMessageRow) (cid cur : Nat) :
    (∀ m ∈ load_db_history msgs cid cur, m.role = "user" ∨ m.role = "assistant") ∧
    (load_db_history msgs cid cur).length ≤ 10 ∧
    (∀ m ∈ load_db_history msgs cid cur,
      m.conversation_id = cid ∧ m.id < cur ∧ m.id ≠ cur) ∧
    (load_db_history msgs cid cur).Pairwise
      (fun a b => a.created_at ≤ b.created_at) ∧
    (∀ m ∈ load_db_history msgs cid cur, m ∈ dbHistoryQuery msgs cid cur) := by
  refine ⟨?_, ?_, ?_, ?_, ?_⟩
  · intro m hm
    rcases List.mem_filter.mp hm with ⟨_, hrole⟩
    simp only [Bool.or_eq_true, beq_iff_eq] at hrole
    exact hrole
  · calc (load_db_history msgs cid cur).length
        ≤ (dbHistoryQuery msgs cid cur).reverse.length :=
          List.length_filter_le _ _
      _ = (dbHistoryQuery msgs cid cur).length := List.length_reverse _
      _ ≤ 10 := List.length_take_le _ _
  · intro m hm
    rcases List.mem_filter.mp hm with ⟨hrev, _⟩
    have hQ : m ∈ dbHistoryQuery msgs cid cur := List.mem_reverse.mp hrev
    have hs : m ∈ sortByKeyDesc (fun m => m.created_at)
        (msgs.filter (fun m => m.conversation_id == cid && m.id < cur)) :=
      List.mem_of_mem_take hQ
    have hf := (mem_sortByKeyDesc _ m _).mp hs
    rcases List.mem_filter.mp hf with ⟨_, hcond⟩
    simp only [Bool.and_eq_true, beq_iff_eq, decide_eq_true_eq] at hcond
    exact ⟨hcond.1, hcond.2, by omega⟩
  · have hsorted := sorted_sortByKeyDesc (fun m : ChatMessageRow => m.created_at)
      (msgs.filter (fun m => m.conversation_id == cid && m.id < cur))
    have htake : (dbHistoryQuery msgs cid cur).Pairwise
        (fun a b => b.created_at ≤ a.created_at) :=
      hsorted.sublist (List.take_sublist _ _)
    have hrev : (dbHistoryQuery msgs cid cur).reverse.Pairwise
        (fun a b => a.created_at ≤ b.created_at) :=
      List.pairwise_reverse.mpr htake
    exact hrev.filter _
  · intro m hm
    rcases List.mem_filter.mp hm with ⟨hrev, _⟩
    exact List.mem_reverse.mp hrev

/-! ## Shared concrete inputs for the turn-handler claims -/

/-- A vision image attachment with inline payload. -/
def imgAttachment : Attachment :=
  ⟨some "image/png", "image/png", some "QUJD", none, none, some "pic.png"⟩

/-- A PDF attachment with inline payload. -/
def pdfAttachment : Attachment :=
  ⟨some "application/pdf", "", some "UERG", none, none, some "doc.pdf"⟩

/-- An empty store. -/
def dbEmpty : DB := ⟨[], [], [], [], 1, 1⟩

/-- A successful retrieval response with one context. -/
def ragOkResponse : RagResponse :=
  ⟨some [⟨some "doc1", none, some "policy text", none, none⟩], none⟩

/-- An environment in which every collaborator succeeds. -/
def envBase : Env :=
  { now := 100
    pdfExtract := fun _ => .ok ("Invoice total 100").data
    uriIngestOk := fun _ => false
    ragResult := .ok ragOkResponse
    lmResult := .ok ⟨[("Hello").data], some "gemma", some 42⟩
    memoryLoadFails := false
    historyLoadFails := false
    errorPersistFails := false
    trackerFails := false }

/-- The same environment with the chat-completion call failing. -/
def envLmFails : Env := { envBase with lmResult := .error "ReadTimeout" }

/-- Chat-completion failing and the error-message commit failing too. -/
def envLmAndPersistFail : Env :=
  { envBase with lmResult := .error "ReadTimeout", errorPersistFails := true }

/-- A turn with one vision image and use_rag=true. -/
def pVision : ChatPayload :=
  ⟨7, ("what is this").data, [imgAttachment], true, [], none, none⟩

/-- A vision turn whose message is only whitespace. -/
def pBlankVision : ChatPayload :=
  ⟨7, (" ").data, [imgAttachment], false, [], none, none⟩

/-- A turn with an empty message, one PDF and one vision image. -/
def pPdfVisionBlank : ChatPayload :=
  ⟨7, [], [pdfAttachment, imgAttachment], false, [], none, none⟩

/-- A plain turn with no attachments. -/
def pNoAttach : ChatPayload :=
  ⟨7, ("hello").data, [], false, [], none, none⟩

/-- A turn supplying a conversation id that resolves to nothing. -/
def pStaleConvId : ChatPayload :=
  ⟨7, ("hello").data, [], false, [], some 999, none⟩

/-! ## Claim C1 — vision routing versus retrieval -/

/-- C1 counterexample: a turn with a vision image and `use_rag=true` is
routed to the vision model, yet the RAG query is still performed for that
turn — retrieval is not suppressed, so vision and retrieval are not
mutually exclusive as the claim states. -/
theorem C1_vision_rag_counterexample :
    (handle_chat_request envBase dbEmpty pVision).vision_routed = true ∧
    (handle_chat_request envBase dbEmpty pVision).rag_queried = true ∧
    pVision.use_rag = true := by decide

/-- C1 (amended): when vision images are present the turn is always routed
to the vision model — the final message sent is the multimodal vision
block — regardless of `use_rag`; but the RAG query is issued exactly when
`use_rag` is effective, independently of the vision routing. -/
theorem C1_vision_priority (env : Env) (db0 db1 : DB) (p : ChatPayload)
    (conv : ConversationRow) (ct : Option (List Char)) (pa : AttachmentsOut)
    (vimgs : List VisionImage)
    (hres : resolve_conversation env.now db0 p = (some (conv, ct), db1))
    (hpa : process_attachments env p.attachments = Except.ok pa)
    (hv : has_vision_attachments p.attachments = (true, vimgs)) :
    (handle_chat_request env db0 p).vision_routed = true ∧
    (handle_chat_request env db0 p).rag_queried = (p.use_rag || pa.use_rag) ∧
    (handle_chat_request env db0 p).sent_messages.getLast?
      = some ⟨"user", .parts (visionContent
          (enhanced_message pa.pdf_content p.message) vimgs)⟩ := by
  rcases hlm : env.lmResult with e | resp <;>
    simp [handle_chat_request, hres, hpa, hv, hlm, List.getLast?_concat]

/-- Witness for C1 at the concrete vision turn. -/
theorem C1_vision_priority_witness :
    (handle_chat_request envBase dbEmpty pVision).vision_routed = true ∧
    (handle_chat_request envBase dbEmpty pVision).rag_queried = true ∧
    (handle_chat_request envBase dbEmpty pVision).sent_messages.getLast?
      = some ⟨"user", MsgContent.parts (visionContent
          (enhanced_message [] pVision.message)
          [⟨"QUJD", "image/png", "pic.png"⟩])⟩ := by
  exact C1_vision_priority envBase dbEmpty _ pVision _ _ _ _ rfl rfl rfl

/-! ## Claim C4 — supplied-but-unresolved conversation id -/

/-- C4: with a supplied conversation id that resolves to no active
conversation of the caller, the handler does not create a new conversation:
it leaves `conversation = None`, dereferences it when building the user
message row, and the turn aborts with an uncaught AttributeError, the store
untouched. -/
theorem C4_stale_conversation_crash :
    (handle_chat_request envBase dbEmpty pStaleConvId).result
      = HandlerResult.crashed "AttributeError: NoneType object has no attribute id" ∧
    (handle_chat_request envBase dbEmpty pStaleConvId).db = dbEmpty := by decide

/-! ## Claim C5 — failure branch of the model call -/

/-- C5: whenever the primary model call fails, the handler returns status
`error` with the fixed apology as the message (independent of the exception
text) and the resolved conversation id, and persists an assistant-role
message whose content is the apology and whose error field carries the real
failure text. -/
theorem C5_failure_response (env : Env) (db0 db1 : DB) (p : ChatPayload)
    (conv : ConversationRow) (ct : Option (List Char)) (pa : AttachmentsOut)
    (e : String)
    (hres : resolve_conversation env.now db0 p = (some (conv, ct), db1))
    (hpa : process_attachments env p.attachments = Except.ok pa)
    (hlm : env.lmResult = Except.error e)
    (hpersist : env.errorPersistFails = false) :
    (handle_chat_request env db0 p).result
      = HandlerResult.responded (error_response conv.id e) ∧
    (error_response conv.id e).status = "error" ∧
    (error_response conv.id e).message = errorApologyChars ∧
    (error_response conv.id e).conversation_id = some conv.id ∧
    ∃ m, (handle_chat_request env db0 p).db.messages.getLast? = some m ∧
      m.role = "assistant" ∧ m.content = errorApologyChars ∧
      m.error_message = some e := by
  refine ⟨?_, rfl, rfl, rfl, ?_⟩
  · simp [handle_chat_request, hres, hpa, hlm, error_branch]
  · have hlast : (handle_chat_request env db0 p).db.messages.getLast?
        = some ⟨db1.next_message_id + 1, conv.id, "assistant",
            errorApologyChars, none, none, none, some e, none, env.now⟩ := by
      simp [handle_chat_request, hres, hpa, hlm, error_branch, hpersist,
        append_message, List.getLast?_concat]
    exact ⟨_, hlast, rfl, rfl, rfl⟩

/-- Witness for C5: a concrete failing turn. -/
theorem C5_failure_response_witness :
    (handle_chat_request envLmFails dbEmpty pNoAttach).result
      = HandlerResult.responded (error_response 1 "ReadTimeout") ∧
    (error_response 1 "ReadTimeout").status = "error" ∧
    (error_response 1 "ReadTimeout").message = errorApologyChars ∧
    (error_response 1 "ReadTimeout").conversation_id = some 1 ∧
    ∃ m, (handle_chat_request envLmFails dbEmpty pNoAttach).db.messages.getLast?
        = some m ∧
      m.role = "assistant" ∧ m.content = errorApologyChars ∧
      m.error_message = some "ReadTimeout" := by
  exact C5_failure_response envLmFails dbEmpty _ pNoAttach _ _ _ "ReadTimeout"
    rfl rfl rfl rfl

/-! ## Claim C10 — error response survives a failing error-persist -/

/-- C10: when the model call fails and storing the error-recording
assistant message itself fails, the same terminal error response (status
`error`, fixed apology, conversation id) is still returned — the secondary
database failure is swallowed and the store keeps only the inbound user
message. -/
theorem C10_persist_failure (env : Env) (db0 db1 : DB) (p : ChatPayload)
    (conv : ConversationRow) (ct : Option (List Char)) (pa : AttachmentsOut)
    (e : String)
    (hres : resolve_conversation env.now db0 p = (some (conv, ct), db1))
    (hpa : process_attachments env p.attachments = Except.ok pa)
    (hlm : env.lmResult = Except.error e)
    (hpersist : env.errorPersistFails = true) :
    (handle_chat_request env db0 p).result
      = HandlerResult.responded (error_response conv.id e) ∧
    (error_response conv.id e).status = "error" ∧
    (error_response conv.id e).message = errorApologyChars ∧
    (error_response conv.id e).conversation_id = some conv.id ∧
    (handle_chat_request env db0 p).db
      = (append_message db1 conv.id "user" p.message
          (if p.attachments.isEmpty then none else some p.attachments)
          none none none none env.now).2 := by
  refine ⟨?_, rfl, rfl, rfl, ?_⟩ <;>
    simp [handle_chat_request, hres, hpa, hlm, error_branch, hpersist]

/-- Witness for C10: the concrete failing turn with the persist failing. -/
theorem C10_persist_failure_witness :
    (handle_chat_request envLmAndPersistFail dbEmpty pNoAttach).result
      = HandlerResult.responded (error_response 1 "ReadTimeout") ∧
    (error_response 1 "ReadTimeout").status = "error" ∧
    (error_response 1 "ReadTimeout").message = errorApologyChars ∧
    (error_response 1 "ReadTimeout").conversation_id = some 1 ∧
    (handle_chat_request envLmAndPersistFail dbEmpty pNoAttach).db
      = (append_message
          { dbEmpty with
              conversations := [⟨1, 7, none, none, 100, 100, true⟩],
              next_conversation_id := 2 }
          1 "user" pNoAttach.message none none none none none 100).2 := by
  exact C10_persist_failure envLmAndPersistFail dbEmpty _ pNoAttach _ _ _
    "ReadTimeout" rfl rfl rfl rfl

/-! ## Claim C9 — blank vision message substitution -/

/-- C9 counterexample: a vision-routed turn whose user message is empty but
which also carries a PDF attachment sends the document template as the text
part, not the fixed substitute — the substitution tests the PDF-enhanced
message, not the raw user message. -/
theorem C9_blank_vision_counterexample :
    (handle_chat_request envBase dbEmpty pPdfVisionBlank).vision_routed = true ∧
    pyStrip pPdfVisionBlank.message = [] ∧
    sentVisionText (handle_chat_request envBase dbEmpty pPdfVisionBlank)
      ≠ some visionFallbackChars := by decide

/-- C9 (amended): for a vision-routed turn whose message is empty or
whitespace-only and for which no PDF text was extracted, the text part sent
to the vision model is the fixed substitute string. -/
theorem C9_blank_vision_text (env : Env) (db0 db1 : DB) (p : ChatPayload)
    (conv : ConversationRow) (ct : Option (List Char)) (pa : AttachmentsOut)
    (vimgs : List VisionImage)
    (hres : resolve_conversation env.now db0 p = (some (conv, ct), db1))
    (hpa : process_attachments env p.attachments = Except.ok pa)
    (hv : has_vision_attachments p.attachments = (true, vimgs))
    (hpdf : pa.pdf_content = [])
    (hblank : (pyStrip p.message).isEmpty = true) :
    sentVisionText (handle_chat_request env db0 p)
      = some visionFallbackChars := by
  rcases hlm : env.lmResult with e | resp <;>
    simp [handle_chat_request, hres, hpa, hv, hlm, sentVisionText,
      enhanced_message, hpdf, visionContent, hblank, List.getLast?_concat]

/-- Witness for C9: a whitespace-only vision turn without PDFs. -/
theorem C9_blank_vision_text_witness :
    sentVisionText (handle_chat_request envBase dbEmpty pBlankVision)
      = some visionFallbackChars := by
  exact C9_blank_vision_text envBase dbEmpty _ pBlankVision _ _ _ _
    rfl rfl rfl rfl (by decide)

end Orcha
